import Mathlib

/-!
Verification of core claims about the perceptia Wayland compositor.

Each Rust component named in the claims is shallowly embedded as executable
Lean definitions translated from the source:

* `cognitive/dharma/src/event_loop.rs` (EventLoop: module registration,
  subscription map, main dispatch loop),
* `src/dharma/dispatcher.rs` (epoll based dispatcher),
* `src/wayland_frontend/proxy.rs` (per client protocol state),
* `src/wayland_frontend/engine.rs` (pointer focus routing),
* `src/output/drm_output.rs` and `src/exhibitor/exhibitor.rs`
  (GBM buffer rotation and output construction).

Rust HashMaps and BTreeMaps that are only ever used through lookup, insert
and update are modelled as functions into `Option`; the one map whose
iteration order is observable (the global registry BTreeMap) is modelled as
an association list kept sorted by key, matching BTreeMap iteration.
Machine integers are `Nat` with an explicit `% 2^32` where the source uses
`u32` arithmetic that could wrap.
-/

namespace Perceptia

/-! ## Event loop (cognitive/dharma/src/event_loop.rs) -/

/-- Identifier of a signal on the signal bus (`bridge::SignalId`). -/
abbrev SignalId := Nat

/-- Shallow model of a dharma `Module` as seen by the event loop: the list
returned by `get_signals`, plus an observable `label` standing for the
identity of the module instance (what its `execute` callback would do). -/
structure ModuleSpec where
  label : Nat
  signals : List SignalId
deriving DecidableEq

/-- Subscription map of an event loop: `BTreeMap<SignalId, Vec<usize>>`.
Only `contains_key`, `get`, `get_mut` and `insert` are used by the source,
so the map is modelled as a function into `Option`. -/
abbrev Subscriptions := SignalId → Option (List Nat)

/-- Inner body of the `for s in signals` loop of `EventLoop::initialize`:
if the map already contains key `s` the module index `i` is pushed onto the
existing subscriber list, otherwise a fresh singleton list is inserted. -/
def subscribe_one (i : Nat) (s : SignalId) (subs : Subscriptions) : Subscriptions :=
  match subs s with
  | some subscribers => fun t => if t == s then some (subscribers ++ [i]) else subs t
  | none => fun t => if t == s then some [i] else subs t

/-- Processes the whole `get_signals` list of the module with index `i`. -/
def subscribe_signals (i : Nat) : List SignalId → Subscriptions → Subscriptions
  | [], subs => subs
  | s :: rest, subs => subscribe_signals i rest (subscribe_one i s subs)

/-- Outer loop of `EventLoop::initialize`: iterates modules in vector order,
`i` counting up from the given start index. -/
def build_subscriptions_aux : Nat → List ModuleSpec → Subscriptions → Subscriptions
  | _, [], subs => subs
  | i, m :: rest, subs => build_subscriptions_aux (i + 1) rest (subscribe_signals i m.signals subs)

/-- Subscription map built by `EventLoop::initialize` for a module vector. -/
def build_subscriptions (modules : List ModuleSpec) : Subscriptions :=
  build_subscriptions_aux 0 modules (fun _ => none)

/-- One step of the constructor draining loop of `EventLoop::new`:
`info.constructors.pop()` removes the LAST element of the vector and the
result is pushed onto `event_loop.modules`; the `Nat` argument is fuel
(always at least the list length). -/
def drain_constructors_aux : Nat → List ModuleSpec → List ModuleSpec → List ModuleSpec
  | 0, _, modules => modules
  | Nat.succ fuel, constructors, modules =>
    match constructors.getLast? with
    | some c => drain_constructors_aux fuel constructors.dropLast (modules ++ [c])
    | none => modules

/-- Module vector produced by `EventLoop::new` from the constructor vector
of `EventLoopInfo` (in which `add_module` appends at the end). -/
def event_loop_new (constructors : List ModuleSpec) : List ModuleSpec :=
  drain_constructors_aux constructors.length constructors []

/-- Dispatch of one `Defined(id, package)` in `EventLoop::do_run`: the
subscriber list for `id` is looked up and `self.modules[*i].execute` is run
for each stored index in list order.  The result is the sequence of labels
of the executed modules. -/
def dispatch_defined (modules : List ModuleSpec) (subs : Subscriptions) (s : SignalId) :
    List Nat :=
  match subs s with
  | some subscribers => subscribers.map (fun i => (modules.getD i (ModuleSpec.mk 0 [])).label)
  | none => []

/-- Execution order observed for a `Defined(s, _)` package by an event loop
whose modules were registered (via `add_module`) in the order given. -/
def event_loop_dispatch (constructors : List ModuleSpec) (s : SignalId) : List Nat :=
  let modules := event_loop_new constructors
  dispatch_defined modules (build_subscriptions modules) s

/-- Special commands understood by the receiver (`bridge::SpecialCommand`). -/
inductive SpecialCommand where
  | terminate
deriving DecidableEq

/-- Results of `Receiver::recv()` (`bridge::ReceiveResult`); packages are
abstracted as `Nat`. -/
inductive ReceiveResult where
  | defined (id : SignalId) (package : Nat)
  | special (command : SpecialCommand)
  | plain (package : Nat)
  | custom (id : Nat) (package : Nat)
  | anyResult (id : Nat) (package : Nat)
  | timeout
  | empty
  | err
deriving DecidableEq

/-- Outcome of one iteration of the `loop` in `EventLoop::do_run`: either
the loop continues (having executed the listed module labels) or `break`
is reached and the loop exits. -/
inductive StepOutcome where
  | continues (executed : List Nat)
  | breaks
deriving DecidableEq

/-- One iteration of the `match self.receiver.recv()` in
`EventLoop::do_run`, transcribed arm by arm. -/
def do_run_step (modules : List ModuleSpec) (subs : Subscriptions) :
    ReceiveResult → StepOutcome
  | .defined id _ => .continues (dispatch_defined modules subs id)
  | .special .terminate => .breaks
  | .plain _ => .continues []
  | .custom _ _ => .continues []
  | .anyResult _ _ => .breaks
  | .timeout => .breaks
  | .empty => .breaks
  | .err => .breaks

/-! ### Event loop lemmas -/

/-- Subscriber list stored for signal `t` (empty when the key is absent). -/
def subscribers_for (subs : Subscriptions) (t : SignalId) : List Nat :=
  (subs t).getD []

/-- Concatenated subscriber lists the initialization loop contributes for
signal `t`, for modules carrying indices `k`, `k + 1`, and so on: each
module contributes its index once per occurrence of `t` in its signal
list. -/
def expected_from : Nat → List ModuleSpec → SignalId → List Nat
  | _, [], _ => []
  | k, m :: rest, t => List.replicate (m.signals.count t) k ++ expected_from (k + 1) rest t

/-! ## Dispatcher (src/dharma/dispatcher.rs) -/

/-- Epoll readiness flags attached to one `EpollEvent`. -/
structure EpollFlags where
  epollin : Bool
  epollout : Bool
  epollerr : Bool
  epollhup : Bool
deriving DecidableEq

/-- Dispatcher event kind: flag set over READ, WRITE, HANGUP
(`dharma::event_kind::EventKind`). -/
structure EventKind where
  read : Bool
  write : Bool
  hangup : Bool
deriving DecidableEq

/-- The `HANGUP` constant: exactly the hangup flag set. -/
def hangup_kind : EventKind := EventKind.mk false false true

/-- Conversion `From<epoll::EpollFlags> for EventKind`: READ from EPOLLIN,
WRITE from EPOLLOUT, HANGUP from EPOLLERR or EPOLLHUP. -/
def event_kind_from (flags : EpollFlags) : EventKind :=
  EventKind.mk flags.epollin flags.epollout (flags.epollerr || flags.epollhup)

/-- One epoll event as returned by `epoll_wait`: the user data word (the
handler id) and the readiness flags. -/
structure EpollEvent where
  data : Nat
  events : EpollFlags
deriving DecidableEq

/-- Error type of the nix crate (`nix::Error`); `epoll_wait` itself only
ever produces the `sys` variant, carrying an errno. -/
inductive NixError where
  | sys (errno : Nat)
  | invalidPath
  | invalidUtf8
  | unsupportedOperation
deriving DecidableEq

/-- Errno value of `EINTR` on Linux. -/
def EINTR : Nat := 4

/-- Result of the `epoll_wait` call: number of ready events together with
the filled event slot, or a nix error. -/
inductive WaitResult where
  | ok (ready : Nat) (event : EpollEvent)
  | err (e : NixError)
deriving DecidableEq

/-- Handler table of `InnerState`: handler id to handler; a handler is
abstracted by a label standing for its `process_event` callback identity. -/
abbrev HandlerTable := Nat → Option Nat

/-- Outcome of `do_wait_and_process`: either the function returns (with
the recorded callback invocations, each an id paired with the event kind
passed to `process_event`, and the resulting handler table), or the
`panic!` for a non-EINTR poll error terminates the process. -/
inductive WaitOutcome where
  | returns (invocations : List (Nat × EventKind)) (handlers : HandlerTable)
  | fatal

/-- Transcription of `InnerState::process`: the handler registered under
`id`, if any, gets its callback invoked with `event_kind`; afterwards, if
`event_kind` equals exactly `HANGUP`, the source is deleted. -/
def inner_state_process (handlers : HandlerTable) (id : Nat) (event_kind : EventKind) :
    List (Nat × EventKind) × HandlerTable :=
  let invocations :=
    match handlers id with
    | some _ => [(id, event_kind)]
    | none => []
  let handlers2 :=
    if event_kind = hangup_kind then (fun t => if t = id then none else handlers t)
    else handlers
  (invocations, handlers2)

/-- Transcription of `do_wait_and_process`: on `Ok(ready)` with a ready
event, process it; on `Err`, return silently for `EINTR` and for non-sys
error values, and panic for any other errno. -/
def do_wait_and_process (handlers : HandlerTable) (wait_result : WaitResult) : WaitOutcome :=
  match wait_result with
  | .ok ready event =>
    if ready > 0 then
      let event_kind := event_kind_from event.events
      let (invocations, handlers2) := inner_state_process handlers event.data event_kind
      .returns invocations handlers2
    else .returns [] handlers
  | .err e =>
    match e with
    | .sys errno => if errno ≠ EINTR then .fatal else .returns [] handlers
    | _ => .returns [] handlers

/-! ## Proxy (src/wayland_frontend/proxy.rs) -/

/-- Canonical id of the `wl_display` object (`skylane wl::common::DISPLAY_ID`). -/
def display_id : Nat := 1

/-- Shell binding of a surface (`facade::ShellSurfaceOid`). -/
inductive ShellSurfaceOid where
  | shell (oid : Nat)
  | zxdg_toplevel_v6 (surface_oid toplevel_oid : Nat)
deriving DecidableEq

/-- Per-surface bookkeeping (`proxy::SurfaceInfo`). -/
structure SurfaceInfo where
  surface_oid : Option Nat
  buffer_oid : Option Nat
  frame_oid : Option Nat
  shell_surface_oid : Option ShellSurfaceOid
deriving DecidableEq

/-- Per-buffer bookkeeping (`proxy::BufferInfo`): the memory view id. -/
structure BufferInfo where
  mvid : Nat
deriving DecidableEq

/-- One registered global (`global::Global`); `register_global` overwrites
its `name`, the remaining fields (interface, version, constructor) are
abstracted as `payload`. -/
structure Global where
  name : Nat
  payload : Nat
deriving DecidableEq

/-- Wire events the proxy emits toward its client, as far as the claims
need them.  Coordinates are kept as integers (the source casts `isize`
positions to `f32` on the wire); `time_ms` carries the `as u32` cast. -/
inductive WaylandEvent where
  | callbackDone (callback_oid : Nat) (time_ms : Nat)
  | displayDeleteId (display_oid : Nat) (object_id : Nat)
  | bufferRelease (buffer_oid : Nat)
  | pointerLeave (pointer_oid : Nat) (serial : Nat) (surface_oid : Nat)
  | pointerEnter (pointer_oid : Nat) (serial : Nat) (surface_oid : Nat) (x y : Int)
deriving DecidableEq

/-- Position in global coordinates (`qualia::Position`, `isize` fields). -/
structure Position where
  x : Int
  y : Int
deriving DecidableEq

/-- Position::default(). -/
def position_default : Position := Position.mk 0 0

/-- Distinguished invalid surface id (`SurfaceId::invalid()`). -/
def invalid_sid : Nat := 0

/-- Client-facing state of one `Proxy`.  Handles to coordinator, settings,
mediator and the raw socket are external collaborators and omitted; the
socket serial generator is modelled by the `serial` counter (each
`get_next_serial` call yields the next value).  The `regions` map is not
touched by any claim and omitted.  `globals` is the BTreeMap from global
name to global, as a list sorted by key (BTreeMap iteration order); the
other dictionaries (HashMaps, HashSets) are lookup-only here, modelled as
functions into `Option` and a list of distinct pointer and keyboard oids
in iteration order. -/
structure Proxy where
  globals : List (Nat × Global)
  pointer_oids : List Nat
  keyboard_oids : List Nat
  memory_pools : List Nat
  surface_oid_to_sid_dictionary : Nat → Option Nat
  sid_to_surface_info_dictionary : Nat → Option SurfaceInfo
  buffer_oid_to_buffer_info_dictionary : Nat → Option BufferInfo
  last_global_id : Nat
  serial : Nat

/-- Proxy::new: all collections empty, `last_global_id` zero. -/
def proxy_new : Proxy :=
  Proxy.mk [] [] [] [] (fun _ => none) (fun _ => none) (fun _ => none) 0 0

/-- Insertion into the sorted association list modelling
`BTreeMap<u32, Global>::insert`. -/
def btree_insert : List (Nat × Global) → Nat → Global → List (Nat × Global)
  | [], k, v => [(k, v)]
  | (k2, v2) :: rest, k, v =>
    if k < k2 then (k, v) :: (k2, v2) :: rest
    else if k = k2 then (k, v) :: rest
    else (k2, v2) :: btree_insert rest k v

/-- Transcription of `Proxy::register_global`: increment `last_global_id`
(`u32` arithmetic, hence the modulus), overwrite the global's name with it
and insert under that key. -/
def register_global (p : Proxy) (g : Global) : Proxy :=
  let name := (p.last_global_id + 1) % 4294967296
  { p with
    last_global_id := name,
    globals := btree_insert p.globals name (Global.mk name g.payload) }

/-- Sequence of `register_global` calls, first call first. -/
def register_globals (p : Proxy) : List Global → Proxy
  | [] => p
  | g :: rest => register_globals (register_global p g) rest

/-- Expected registry contents after registering `gs` when the counter
stands at `c`: names `c + 1`, `c + 2`, ... paired with the registered
globals in call order. -/
def names_from : Nat → List Global → List (Nat × Global)
  | _, [] => []
  | c, g :: rest => (c + 1, Global.mk (c + 1) g.payload) :: names_from (c + 1) rest

/-- Expansion of the `relate_sid_with!(buffer_oid, ...)` macro used by
`Proxy::relate_sid_with_buffer`: if an info record exists for `sid`, set
its `buffer_oid` when unset (only a warning is logged when already set);
otherwise insert a fresh record carrying just the buffer oid. -/
def relate_sid_with_buffer (dict : Nat → Option SurfaceInfo) (sid oid : Nat) :
    Nat → Option SurfaceInfo :=
  match dict sid with
  | some info =>
    match info.buffer_oid with
    | none => fun t =>
        if t = sid then
          some (SurfaceInfo.mk info.surface_oid (some oid) info.frame_oid info.shell_surface_oid)
        else dict t
    | some _ => dict
  | none => fun t =>
      if t = sid then some (SurfaceInfo.mk none (some oid) none none) else dict t

/-- Calls the proxy makes into the coordinator facade, as far as the
claims need them. -/
inductive CoordinatorCall where
  | attach (mvid : Nat) (sid : Nat)
deriving DecidableEq

/-- Transcription of `Facade::attach` for `Proxy`: a known buffer oid
binds the buffer to the surface and forwards to `coordinator.attach`; an
unknown buffer oid only logs an error. -/
def proxy_attach (p : Proxy) (buffer_oid sid : Nat) :
    Proxy × List CoordinatorCall :=
  match p.buffer_oid_to_buffer_info_dictionary buffer_oid with
  | some info =>
    ({ p with
        sid_to_surface_info_dictionary :=
          relate_sid_with_buffer p.sid_to_surface_info_dictionary sid buffer_oid },
     [CoordinatorCall.attach info.mvid sid])
  | none => (p, [])

/-- Transcription of `Gateway::on_surface_frame` for `Proxy`: when an info
record exists, emit `wl_callback.done` and `wl_display.delete_id` if a
frame oid is pending, emit `wl_buffer.release` if a buffer oid is pending,
and clear both slots. -/
def proxy_on_surface_frame (p : Proxy) (sid : Nat) (milliseconds : Nat) :
    Proxy × List WaylandEvent :=
  match p.sid_to_surface_info_dictionary sid with
  | none => (p, [])
  | some info =>
    let frame_events :=
      match info.frame_oid with
      | some frame_oid =>
        [WaylandEvent.callbackDone frame_oid (milliseconds % 4294967296),
         WaylandEvent.displayDeleteId display_id frame_oid]
      | none => []
    let buffer_events :=
      match info.buffer_oid with
      | some buffer_oid => [WaylandEvent.bufferRelease buffer_oid]
      | none => []
    let info2 := SurfaceInfo.mk info.surface_oid none none info.shell_surface_oid
    ({ p with
        sid_to_surface_info_dictionary :=
          fun t => if t = sid then some info2 else p.sid_to_surface_info_dictionary t },
     frame_events ++ buffer_events)

/-- The `for pointer_oid in self.pointer_oids` loop sending
`wl_pointer.leave`, threading the socket serial counter. -/
def emit_pointer_leaves (serial : Nat) (oids : List Nat) (surface_oid : Nat) :
    Nat × List WaylandEvent :=
  match oids with
  | [] => (serial, [])
  | p :: rest =>
    let s := serial + 1
    let (s2, events) := emit_pointer_leaves s rest surface_oid
    (s2, WaylandEvent.pointerLeave p s surface_oid :: events)

/-- The `for pointer_oid in self.pointer_oids` loop sending
`wl_pointer.enter`, threading the socket serial counter. -/
def emit_pointer_enters (serial : Nat) (oids : List Nat) (surface_oid : Nat)
    (position : Position) : Nat × List WaylandEvent :=
  match oids with
  | [] => (serial, [])
  | p :: rest =>
    let s := serial + 1
    let (s2, events) := emit_pointer_enters s rest surface_oid position
    (s2, WaylandEvent.pointerEnter p s surface_oid position.x position.y :: events)

/-- Transcription of `Gateway::on_pointer_focus_changed` for `Proxy`: a
valid old surface with a known surface oid gets one `leave` per pointer
object; a valid new surface likewise gets one `enter` per pointer object. -/
def proxy_on_pointer_focus_changed (p : Proxy) (old_sid new_sid : Nat)
    (position : Position) : Proxy × List WaylandEvent :=
  let leaves :=
    if old_sid ≠ invalid_sid then
      match p.sid_to_surface_info_dictionary old_sid with
      | some surface_info =>
        match surface_info.surface_oid with
        | some surface_oid => emit_pointer_leaves p.serial p.pointer_oids surface_oid
        | none => (p.serial, [])
      | none => (p.serial, [])
    else (p.serial, [])
  let enters :=
    if new_sid ≠ invalid_sid then
      match p.sid_to_surface_info_dictionary new_sid with
      | some surface_info =>
        match surface_info.surface_oid with
        | some surface_oid =>
          emit_pointer_enters leaves.fst p.pointer_oids surface_oid position
        | none => (leaves.fst, [])
      | none => (leaves.fst, [])
    else (leaves.fst, [])
  ({ p with serial := enters.fst }, leaves.snd ++ enters.snd)

/-! ## Engine (src/wayland_frontend/engine.rs) -/

/-- Transcription of `Gateway::on_pointer_focus_changed` for `Engine`.
`clients` is the engine's client map restricted to proxies, `mediator`
the shared surface-id to client-id table.  The result is the sequence of
(client id, emitted events) notifications, in emission order. -/
def engine_on_pointer_focus_changed (clients : Nat → Option Proxy)
    (mediator : Nat → Option Nat) (old_sid new_sid : Nat) (position : Position) :
    List (Nat × List WaylandEvent) :=
  let old_client_id := mediator old_sid
  let new_client_id := mediator new_sid
  if new_client_id ≠ old_client_id then
    (match old_client_id with
     | some client_id =>
       match clients client_id with
       | some p =>
         [(client_id,
           (proxy_on_pointer_focus_changed p old_sid invalid_sid position_default).snd)]
       | none => []
     | none => []) ++
    (match new_client_id with
     | some client_id =>
       match clients client_id with
       | some p =>
         [(client_id, (proxy_on_pointer_focus_changed p invalid_sid new_sid position).snd)]
       | none => []
     | none => [])
  else
    match old_client_id with
    | some client_id =>
      match clients client_id with
      | some p => [(client_id, (proxy_on_pointer_focus_changed p old_sid new_sid position).snd)]
      | none => []
    | none => []

/-! ## DRM output (src/output/drm_output.rs) -/

/-- One GBM buffer object as observed by `swap_gbm_buffers`. -/
structure BufferObject where
  width : Nat
  height : Nat
  stride : Nat
  handle : Nat
deriving DecidableEq

/-- Responses of the external DRM and GBM calls during one
`swap_gbm_buffers` call: the locked front buffer (if any), the `add_fb`
result and whether `set_crtc` succeeds, for the case each call is made. -/
structure SwapEnv where
  lock_result : Option BufferObject
  add_fb_result : Option Nat
  set_crtc_ok : Bool
deriving DecidableEq

/-- External DRM and GBM calls issued by `swap_gbm_buffers`, in order. -/
inductive DrmCall where
  | release_buffer (handle : Nat)
  | add_fb (width height depth bpp stride handle : Nat)
  | set_crtc (crtc_id fb connector_id : Nat)
deriving DecidableEq

/-- A DRM mode (`drm_mode::ModeInfo`), reduced to its display size. -/
structure ModeInfo where
  hdisplay : Nat
  vdisplay : Nat
deriving DecidableEq

/-- State of one `DrmOutput` relevant to buffer rotation: the
buffer-object-handle to framebuffer-id memoization map, the one-deep
locked buffer queue, the current framebuffer and the DRM identifiers. -/
structure DrmState where
  buffers : Nat → Option Nat
  bo : Option BufferObject
  fb : Nat
  crtc_id : Nat
  connector_id : Nat
  mode : ModeInfo

/-- Result of one `swap_gbm_buffers` call: successor state, the external
calls made, and the returned value. -/
structure SwapOutcome where
  state : DrmState
  calls : List DrmCall
  result : Except String Nat

/-- Transcription of `DrmOutput::swap_gbm_buffers`: release any held
buffer object; lock the front buffer; if its handle is memoized reuse the
framebuffer id, otherwise `add_fb` (depth 24, bpp 32) and `set_crtc`, and
memoize only when both succeed. -/
def swap_gbm_buffers (st : DrmState) (env : SwapEnv) : SwapOutcome :=
  let released :=
    match st.bo with
    | some bo => ({ st with bo := none }, [DrmCall.release_buffer bo.handle])
    | none => (st, ([] : List DrmCall))
  let st1 := released.fst
  let calls0 := released.snd
  match env.lock_result with
  | none => SwapOutcome.mk st1 calls0 (Except.error "Failed to lock front buffer")
  | some bo =>
    let st2 := { st1 with bo := some bo }
    match st2.buffers bo.handle with
    | some fb => SwapOutcome.mk { st2 with fb := fb } calls0 (Except.ok fb)
    | none =>
      match env.add_fb_result with
      | some fb =>
        let calls1 := calls0 ++ [DrmCall.add_fb bo.width bo.height 24 32 bo.stride bo.handle]
        let calls2 := calls1 ++ [DrmCall.set_crtc st2.crtc_id fb st2.connector_id]
        if env.set_crtc_ok then
          SwapOutcome.mk
            { st2 with
                buffers := fun h => if h = bo.handle then some fb else st2.buffers h,
                fb := fb }
            calls2 (Except.ok fb)
        else
          SwapOutcome.mk st2 calls2 (Except.error "Failed to set CRTC")
      | none =>
        SwapOutcome.mk st2
          (calls0 ++ [DrmCall.add_fb bo.width bo.height 24 32 bo.stride bo.handle])
          (Except.error "Failed to create DRM framebuffer")

/-- Runs a sequence of `swap_gbm_buffers` calls, accumulating the external
calls made. -/
def run_swaps (st : DrmState) : List SwapEnv → DrmState × List DrmCall
  | [] => (st, [])
  | env :: rest =>
    let out := swap_gbm_buffers st env
    let tail := run_swaps out.state rest
    (tail.fst, out.calls ++ tail.snd)

/-- Recognizer for an `add_fb` call for the given handle. -/
def is_add_fb_for (h : Nat) : DrmCall → Bool
  | .add_fb _ _ _ _ _ handle => handle == h
  | _ => false

/-- Number of `add_fb` invocations for handle `h` in a call trace. -/
def add_fb_count (h : Nat) (calls : List DrmCall) : Nat :=
  calls.countP (is_add_fb_for h)

/-- Fresh rotation state of a `DrmOutput` right after construction of the
struct: empty memoization map, no locked buffer, invalid framebuffer. -/
def drm_state_new (crtc_id connector_id : Nat) (mode : ModeInfo) : DrmState :=
  DrmState.mk (fun _ => none) none 0 crtc_id connector_id mode

/-- Responses of the external calls made during `DrmOutput::new`: the
connector query (mode list and physical size), the GBM, EGL and renderer
construction steps, and the initial `swap_buffers`. -/
structure ConnectorInfo where
  modes : List ModeInfo
  mm_width : Nat
  mm_height : Nat

structure NewEnv where
  connector : Option ConnectorInfo
  gbm_result : Except String Unit
  egl_result : Except String Unit
  renderer_init_result : Except String Unit
  renderer_swap_result : Except String Unit
  first_swap : SwapEnv

/-- Outcome of `DrmOutput::new`: a constructed output, an `Illusion`
error value, or a panic (process abort). -/
inductive NewOutcome where
  | ok (st : DrmState)
  | err (msg : String)
  | panicked

/-- Transcription of `DrmOutput::new`: query the connector (error value
when absent), take mode 0 via `modes.get(0).unwrap()` (which panics on an
empty mode list), build GBM, EGL and the renderer, then run the renderer
initialization and one `swap_buffers` (renderer swap followed by
`swap_gbm_buffers`). -/
def drm_output_new (crtc_id connector_id : Nat) (env : NewEnv) : NewOutcome :=
  match env.connector with
  | none => .err "Failed to get mode for connector"
  | some connector =>
    match connector.modes.get? 0 with
    | none => .panicked
    | some mode =>
      match env.gbm_result with
      | .error e => .err e
      | .ok _ =>
        match env.egl_result with
        | .error e => .err e
        | .ok _ =>
          match env.renderer_init_result with
          | .error e => .err e
          | .ok _ =>
            match env.renderer_swap_result with
            | .error e => .err e
            | .ok _ =>
              let out := swap_gbm_buffers (drm_state_new crtc_id connector_id mode) env.first_swap
              match out.result with
              | .error e => .err e
              | .ok _ => .ok out.state

/-! ## Exhibitor (src/exhibitor/exhibitor.rs) -/

/-- Outcome of `Exhibitor::on_output_found`: the handler returns (with the
new output-id counter and displays map, displays abstracted by their id),
or a panic escaping `Output::new` aborts the thread. -/
inductive ExhibitorOutcome where
  | proceeds (last_output_id : Nat) (displays : Nat → Option Nat)
  | aborted

/-- Transcription of `Exhibitor::on_output_found`: generate the next
output id, construct the output; on an error value log and return leaving
the displays map unchanged; on success insert a display under the new id. -/
def exhibitor_on_output_found (last_output_id : Nat) (displays : Nat → Option Nat)
    (crtc_id connector_id : Nat) (env : NewEnv) : ExhibitorOutcome :=
  let id := last_output_id + 1
  match drm_output_new crtc_id connector_id env with
  | .ok _ => .proceeds id (fun k => if k = id then some id else displays k)
  | .err _ => .proceeds id displays
  | .panicked => .aborted

/-! ## Concrete fixtures used by the witnesses -/

/-- Surface info with surface oid 9, pending buffer oid 5 and pending
frame oid 7. -/
def fixture_info : SurfaceInfo := SurfaceInfo.mk (some 9) (some 5) (some 7) none

/-- Proxy knowing exactly surface id 1 with `fixture_info`. -/
def fixture_proxy : Proxy :=
  { proxy_new with
      sid_to_surface_info_dictionary := fun t => if t = 1 then some fixture_info else none }

/-- Proxy of client A for the focus witness: pointer oids 31 and 32,
surface id 1 bound to surface oid 41. -/
def fixture_proxy_a : Proxy :=
  { proxy_new with
      pointer_oids := [31, 32],
      sid_to_surface_info_dictionary :=
        fun t => if t = 1 then some (SurfaceInfo.mk (some 41) none none none) else none }

/-- Proxy of client B for the focus witness: pointer oid 33, surface id 2
bound to surface oid 42. -/
def fixture_proxy_b : Proxy :=
  { proxy_new with
      pointer_oids := [33],
      sid_to_surface_info_dictionary :=
        fun t => if t = 2 then some (SurfaceInfo.mk (some 42) none none none) else none }

/-- Client map for the focus witness: client 10 is A, client 20 is B. -/
def fixture_clients : Nat → Option Proxy :=
  fun c => if c = 10 then some fixture_proxy_a else if c = 20 then some fixture_proxy_b else none

/-- Mediator table for the focus witness: surface 1 belongs to client 10,
surface 2 to client 20. -/
def fixture_mediator : Nat → Option Nat :=
  fun s => if s = 1 then some 10 else if s = 2 then some 20 else none

/-- Recognizer for a `wl_pointer.leave` event for surface oid `so`. -/
def is_leave_for (so : Nat) : WaylandEvent → Bool
  | .pointerLeave _ _ s => s == so
  | _ => false

/-- Recognizer for a `wl_pointer.enter` event for surface oid `so`. -/
def is_enter_for (so : Nat) : WaylandEvent → Bool
  | .pointerEnter _ _ s _ _ => s == so
  | _ => false

/-- Construction environment whose connector reports an empty mode list;
all later steps would succeed. -/
def fixture_env_no_modes : NewEnv :=
  NewEnv.mk (some (ConnectorInfo.mk [] 300 200)) (Except.ok ()) (Except.ok ())
    (Except.ok ()) (Except.ok ()) (SwapEnv.mk none none false)

/-- Handler table holding one handler (label 9) under id 3. -/
def fixture_handlers : HandlerTable :=
  fun i => if i = 3 then some 9 else none

theorem subscribers_for_subscribe_one (i : Nat) (s t : SignalId) (subs : Subscriptions) :
    subscribers_for (subscribe_one i s subs) t =
      subscribers_for subs t ++ (if t = s then [i] else []) := by
  unfold subscribe_one subscribers_for
  by_cases ht : t = s
  · subst ht
    cases h : subs t <;> simp [h]
  · cases h : subs s <;> simp [h, ht]

theorem subscribers_for_subscribe_signals (i : Nat) (sigs : List SignalId) (t : SignalId)
    (subs : Subscriptions) :
    subscribers_for (subscribe_signals i sigs subs) t =
      subscribers_for subs t ++ List.replicate (sigs.count t) i := by
  induction sigs generalizing subs with
  | nil => simp [subscribe_signals]
  | cons s rest ih =>
    rw [subscribe_signals, ih, subscribers_for_subscribe_one, List.append_assoc]
    by_cases hts : t = s
    · subst hts
      simp [List.count_cons, List.replicate_succ]
    · simp [List.count_cons, Ne.symm hts, hts]

theorem subscribers_for_build_aux (ms : List ModuleSpec) (k : Nat) (t : SignalId)
    (subs : Subscriptions) :
    subscribers_for (build_subscriptions_aux k ms subs) t =
      subscribers_for subs t ++ expected_from k ms t := by
  induction ms generalizing k subs with
  | nil => simp [build_subscriptions_aux, expected_from]
  | cons m rest ih =>
    rw [build_subscriptions_aux, ih, expected_from,
      subscribers_for_subscribe_signals, List.append_assoc]

theorem subscribers_for_build (ms : List ModuleSpec) (t : SignalId) :
    subscribers_for (build_subscriptions ms) t = expected_from 0 ms t := by
  rw [build_subscriptions, subscribers_for_build_aux]
  simp [subscribers_for]

theorem count_expected_from_lt (ms : List ModuleSpec) (k i : Nat) (t : SignalId)
    (h : i < k) : (expected_from k ms t).count i = 0 := by
  induction ms generalizing k with
  | nil => simp [expected_from]
  | cons m rest ih =>
    rw [expected_from, List.count_append, List.count_replicate,
      if_neg (by simp; omega), ih (k + 1) (by omega)]

theorem count_expected_from (ms : List ModuleSpec) (k i : Nat) (t : SignalId)
    (hk : k ≤ i) (hlt : i < k + ms.length) :
    (expected_from k ms t).count i =
      ((ms.getD (i - k) (ModuleSpec.mk 0 [])).signals.count t) := by
  induction ms generalizing k with
  | nil => simp at hlt; omega
  | cons m rest ih =>
    rw [expected_from, List.count_append, List.count_replicate]
    by_cases hik : i = k
    · subst hik
      rw [if_pos (by simp), count_expected_from_lt rest (i + 1) i t (by omega)]
      simp
    · rw [if_neg (by simp; omega), Nat.zero_add,
        ih (k + 1) (by omega) (by simp at hlt; omega)]
      have harith : i - k = (i - (k + 1)) + 1 := by omega
      rw [harith]
      simp [List.getD_cons_succ]

theorem drain_constructors_aux_eq (fuel : Nat) (cs acc : List ModuleSpec)
    (h : cs.length ≤ fuel) :
    drain_constructors_aux fuel cs acc = acc ++ cs.reverse := by
  induction fuel generalizing cs acc with
  | zero =>
    have : cs = [] := by
      cases cs with
      | nil => rfl
      | cons c rest => simp at h
    subst this
    simp [drain_constructors_aux]
  | succ n ih =>
    cases hlast : cs.getLast? with
    | none =>
      have : cs = [] := List.getLast?_eq_none_iff.mp hlast
      subst this
      simp [drain_constructors_aux]
    | some c =>
      have hne : cs ≠ [] := by
        intro hnil
        subst hnil
        simp at hlast
      have hc : c = cs.getLast hne := by
        have := List.getLast?_eq_getLast cs hne
        rw [hlast] at this
        exact (Option.some_injective _ this)
      have hsplit : cs.dropLast ++ [c] = cs := by
        rw [hc]
        exact List.dropLast_append_getLast hne
      rw [drain_constructors_aux, hlast]
      show drain_constructors_aux n cs.dropLast (acc ++ [c]) = acc ++ cs.reverse
      rw [ih cs.dropLast (acc ++ [c]) (by
        have := List.length_dropLast cs
        omega)]
      rw [List.append_assoc]
      congr 1
      have : ([c] : List ModuleSpec) ++ cs.dropLast.reverse = (cs.dropLast ++ [c]).reverse := by
        simp
      rw [this, hsplit]

theorem event_loop_new_eq (cs : List ModuleSpec) : event_loop_new cs = cs.reverse := by
  rw [event_loop_new, drain_constructors_aux_eq cs.length cs [] le_rfl]
  simp

theorem dispatch_defined_eq_map (ms : List ModuleSpec) (subs : Subscriptions) (s : SignalId) :
    dispatch_defined ms subs s =
      (subscribers_for subs s).map (fun i => (ms.getD i (ModuleSpec.mk 0 [])).label) := by
  unfold dispatch_defined subscribers_for
  cases h : subs s with
  | none => simp
  | some l => simp

theorem expected_map_filter (s : SignalId) (ms : List ModuleSpec) :
    ∀ pre : List ModuleSpec, (∀ m ∈ ms, m.signals.Nodup) →
    (expected_from pre.length ms s).map
        (fun i => ((pre ++ ms).getD i (ModuleSpec.mk 0 [])).label) =
      (ms.filter (fun m => decide (s ∈ m.signals))).map ModuleSpec.label := by
  induction ms with
  | nil => intro pre _; simp [expected_from]
  | cons m rest ih =>
    intro pre hnd
    have hm : m.signals.Nodup := hnd m (by simp)
    have hrest : ∀ m ∈ rest, m.signals.Nodup := fun x hx => hnd x (by simp [hx])
    rw [expected_from, List.map_append]
    have hgd : (pre ++ m :: rest).getD pre.length (ModuleSpec.mk 0 []) = m := by
      rw [List.getD_append_right pre (m :: rest) (ModuleSpec.mk 0 []) pre.length le_rfl]
      simp
    have htail : (expected_from (pre.length + 1) rest s).map
        (fun i => ((pre ++ m :: rest).getD i (ModuleSpec.mk 0 [])).label) =
        (rest.filter (fun m => decide (s ∈ m.signals))).map ModuleSpec.label := by
      have hlen : (pre ++ [m]).length = pre.length + 1 := by simp
      have happ : (pre ++ [m]) ++ rest = pre ++ m :: rest := by simp
      have := ih (pre ++ [m]) hrest
      rw [hlen, happ] at this
      exact this
    by_cases hmem : s ∈ m.signals
    · have hcount : m.signals.count s = 1 := List.count_eq_one_of_mem hm hmem
      rw [hcount, List.filter_cons_of_pos (by simpa using hmem)]
      simp only [List.replicate_succ, List.replicate_zero, List.map_cons, List.map_nil]
      rw [hgd, htail]
      simp
    · have hcount : m.signals.count s = 0 := List.count_eq_zero_of_not_mem hmem
      rw [hcount, List.filter_cons_of_neg (by simpa using hmem)]
      simp only [List.replicate_zero, List.map_nil, List.nil_append]
      exact htail

/-! ## Claim C1 -/

/-- C1 counterexample: two modules registered in the order (label 10, then
label 20), both subscribed to signal 1, are executed in the order 20 then
10 — not in module-registration order as the claim states.  The expression
on the right of the inequality is the registration-order delivery the
claim asserts. -/
theorem c1_dispatch_not_registration_order :
    event_loop_dispatch [ModuleSpec.mk 10 [1], ModuleSpec.mk 20 [1]] 1 = [20, 10] ∧
    event_loop_dispatch [ModuleSpec.mk 10 [1], ModuleSpec.mk 20 [1]] 1 ≠
      (([ModuleSpec.mk 10 [1], ModuleSpec.mk 20 [1]].filter
          (fun m => decide ((1 : SignalId) ∈ m.signals))).map ModuleSpec.label) := by
  decide

/-- C1 (amended): a `Defined(s, package)` package is dispatched via
`execute` to exactly the modules that subscribed to signal `s`, but in
REVERSE module-registration order: `EventLoop::new` drains the
constructor vector with `pop()` (taking from the end), so the module
vector — and with it the subscriber lists — is the reverse of the
`add_module` order.  Stated for modules whose `get_signals` lists are
duplicate-free. -/
theorem c1_dispatch_reverse_registration_order (cs : List ModuleSpec) (s : SignalId)
    (h : ∀ m ∈ cs, m.signals.Nodup) :
    event_loop_dispatch cs s =
      ((cs.filter (fun m => decide (s ∈ m.signals))).map ModuleSpec.label).reverse := by
  unfold event_loop_dispatch
  rw [event_loop_new_eq, dispatch_defined_eq_map, subscribers_for_build]
  have hrev : ∀ m ∈ cs.reverse, m.signals.Nodup := by
    intro m hm
    exact h m (List.mem_reverse.mp hm)
  have hmap := expected_map_filter s cs.reverse [] hrev
  simp only [List.length_nil, List.nil_append] at hmap
  rw [hmap, List.filter_reverse, List.map_reverse]

/-- C1 witness: concrete two-module loop for which the amended dispatch
order theorem evaluates. -/
theorem c1_dispatch_reverse_registration_order_witness :
    (∀ m ∈ [ModuleSpec.mk 10 [1], ModuleSpec.mk 20 [1]], m.signals.Nodup) ∧
    event_loop_dispatch [ModuleSpec.mk 10 [1], ModuleSpec.mk 20 [1]] 1 =
      (([ModuleSpec.mk 10 [1], ModuleSpec.mk 20 [1]].filter
          (fun m => decide ((1 : SignalId) ∈ m.signals))).map ModuleSpec.label).reverse :=
  ⟨by decide, c1_dispatch_reverse_registration_order _ 1 (by decide)⟩

/-! ## Claim C6 -/

/-- C6: the `do_run` match breaks the loop for `Any` results, although the
comment in the source groups `Any` with `Plain` and `Custom` under
"Ignore, Signaler should never emit these" — contradicting both the claim
and the code's own comment, which say the loop ignores it and continues;
`Plain` and `Custom` do continue. -/
theorem c6_any_result_breaks_loop :
    do_run_step [] (fun _ => none) (ReceiveResult.anyResult 0 0) = StepOutcome.breaks ∧
    do_run_step [] (fun _ => none) (ReceiveResult.plain 0) = StepOutcome.continues [] ∧
    do_run_step [] (fun _ => none) (ReceiveResult.custom 0 0) = StepOutcome.continues [] :=
  ⟨rfl, rfl, rfl⟩

/-! ## Claim C9 -/

/-- C9 counterexample: a module whose `get_signals` returns signal 5 twice
gets its index stored twice in the subscriber list for 5, so the index
does not appear exactly once "whatever list get_signals returns". -/
theorem c9_duplicate_signal_duplicates_index :
    5 ∈ (ModuleSpec.mk 0 [5, 5]).signals ∧
    (subscribers_for (build_subscriptions [ModuleSpec.mk 0 [5, 5]]) 5).count 0 = 2 ∧
    (subscribers_for (build_subscriptions [ModuleSpec.mk 0 [5, 5]]) 5).count 0 ≠ 1 := by
  decide

/-- C9 (amended): after `EventLoop::initialize`, the index of module `i`
appears in the subscriber list for signal `s` exactly as many times as
`s` occurs in that module's `get_signals` list — in particular exactly
once whenever the module lists `s` exactly once. -/
theorem c9_subscriber_multiplicity (ms : List ModuleSpec) (i : Nat) (s : SignalId)
    (h : i < ms.length) :
    (subscribers_for (build_subscriptions ms) s).count i =
      ((ms.getD i (ModuleSpec.mk 0 [])).signals.count s) := by
  rw [subscribers_for_build]
  have hc := count_expected_from ms 0 i s (Nat.zero_le i) (by omega)
  simpa using hc

/-- C9 witness: a single module listing signal 5 once has its index stored
exactly once. -/
theorem c9_subscriber_multiplicity_witness :
    0 < ([ModuleSpec.mk 7 [5]] : List ModuleSpec).length ∧
    (subscribers_for (build_subscriptions [ModuleSpec.mk 7 [5]]) 5).count 0 =
      (([ModuleSpec.mk 7 [5]].getD 0 (ModuleSpec.mk 0 [])).signals.count 5) :=
  ⟨by decide, c9_subscriber_multiplicity [ModuleSpec.mk 7 [5]] 0 5 (by decide)⟩

/-! ## Claim C2 -/

/-- C2: with a pending frame oid `f` and pending buffer oid `b`,
`on_surface_frame` emits `wl_callback.done`, `wl_display.delete_id` and
`wl_buffer.release` in this order, each exactly once; both slots are
cleared, and a second call for the same surface emits nothing. -/
theorem c2_on_surface_frame_exactly_once (p : Proxy) (sid ms f b : Nat)
    (info : SurfaceInfo)
    (hinfo : p.sid_to_surface_info_dictionary sid = some info)
    (hframe : info.frame_oid = some f) (hbuffer : info.buffer_oid = some b) :
    (proxy_on_surface_frame p sid ms).snd =
      [WaylandEvent.callbackDone f (ms % 4294967296),
       WaylandEvent.displayDeleteId display_id f,
       WaylandEvent.bufferRelease b] ∧
    (proxy_on_surface_frame p sid ms).fst.sid_to_surface_info_dictionary sid =
      some (SurfaceInfo.mk info.surface_oid none none info.shell_surface_oid) ∧
    (∀ ms2, (proxy_on_surface_frame (proxy_on_surface_frame p sid ms).fst sid ms2).snd = []) := by
  unfold proxy_on_surface_frame
  rw [hinfo]
  simp [hframe, hbuffer]

/-- C2 witness: concrete proxy with frame oid 7 and buffer oid 5 pending
for surface 1. -/
theorem c2_on_surface_frame_exactly_once_witness :
    fixture_proxy.sid_to_surface_info_dictionary 1 = some fixture_info ∧
    fixture_info.frame_oid = some 7 ∧
    fixture_info.buffer_oid = some 5 ∧
    ((proxy_on_surface_frame fixture_proxy 1 1000).snd =
      [WaylandEvent.callbackDone 7 (1000 % 4294967296),
       WaylandEvent.displayDeleteId display_id 7,
       WaylandEvent.bufferRelease 5] ∧
     (proxy_on_surface_frame fixture_proxy 1 1000).fst.sid_to_surface_info_dictionary 1 =
       some (SurfaceInfo.mk fixture_info.surface_oid none none fixture_info.shell_surface_oid) ∧
     (∀ ms2,
       (proxy_on_surface_frame (proxy_on_surface_frame fixture_proxy 1 1000).fst 1 ms2).snd =
         [])) :=
  ⟨rfl, rfl, rfl,
    c2_on_surface_frame_exactly_once fixture_proxy 1 1000 7 5 fixture_info rfl rfl rfl⟩

/-! ## Claim C10 -/

/-- C10: `Proxy::attach` with a buffer object id absent from the buffer
table is a pure no-op apart from logging — no coordinator call is made
and the proxy state (in particular the surface-info dictionary) is
returned unchanged. -/
theorem c10_attach_unknown_buffer_noop (p : Proxy) (buffer_oid sid : Nat)
    (h : p.buffer_oid_to_buffer_info_dictionary buffer_oid = none) :
    proxy_attach p buffer_oid sid = (p, []) := by
  unfold proxy_attach
  rw [h]

/-- C10 witness: a fresh proxy knows no buffer 5, so attach is a no-op. -/
theorem c10_attach_unknown_buffer_noop_witness :
    proxy_new.buffer_oid_to_buffer_info_dictionary 5 = none ∧
    proxy_attach proxy_new 5 1 = (proxy_new, []) :=
  ⟨rfl, c10_attach_unknown_buffer_noop proxy_new 5 1 rfl⟩

/-! ## Claim C3 -/

theorem btree_insert_append (l : List (Nat × Global)) (k : Nat) (v : Global)
    (h : ∀ q ∈ l, q.fst < k) : btree_insert l k v = l ++ [(k, v)] := by
  induction l with
  | nil => rfl
  | cons q rest ih =>
    have hq : q.fst < k := h q (by simp)
    rw [btree_insert]
    rw [if_neg (by omega), if_neg (by omega)]
    rw [ih (fun r hr => h r (by simp [hr]))]
    simp

theorem register_globals_spec (gs : List Global) : ∀ p : Proxy,
    (∀ q ∈ p.globals, q.fst ≤ p.last_global_id) →
    p.last_global_id + gs.length < 4294967296 →
    (register_globals p gs).globals = p.globals ++ names_from p.last_global_id gs ∧
    (register_globals p gs).last_global_id = p.last_global_id + gs.length := by
  induction gs with
  | nil => intro p _ _; simp [register_globals, names_from]
  | cons g rest ih =>
    intro p hkeys hbound
    have hlen : (g :: rest).length = rest.length + 1 := by simp
    have hname : (p.last_global_id + 1) % 4294967296 = p.last_global_id + 1 := by
      apply Nat.mod_eq_of_lt
      omega
    have hins : btree_insert p.globals (p.last_global_id + 1)
        (Global.mk (p.last_global_id + 1) g.payload) =
        p.globals ++ [(p.last_global_id + 1, Global.mk (p.last_global_id + 1) g.payload)] :=
      btree_insert_append _ _ _ (fun q hq => Nat.lt_succ_of_le (hkeys q hq))
    have hstep : register_global p g =
        { p with
            last_global_id := p.last_global_id + 1,
            globals := p.globals ++
              [(p.last_global_id + 1, Global.mk (p.last_global_id + 1) g.payload)] } := by
      simp only [register_global, hname, hins]
    rw [register_globals, hstep]
    have hkeys2 : ∀ q ∈ p.globals ++
        [(p.last_global_id + 1, Global.mk (p.last_global_id + 1) g.payload)],
        q.fst ≤ p.last_global_id + 1 := by
      intro q hq
      rcases List.mem_append.mp hq with hql | hqr
      · exact Nat.le_succ_of_le (hkeys q hql)
      · rw [List.mem_singleton.mp hqr]
    have hbound2 : p.last_global_id + 1 + rest.length < 4294967296 := by
      simp at hbound
      omega
    have := ih { p with
        last_global_id := p.last_global_id + 1,
        globals := p.globals ++
          [(p.last_global_id + 1, Global.mk (p.last_global_id + 1) g.payload)] }
      hkeys2 hbound2
    rw [this.1, this.2]
    constructor
    · rw [names_from, List.append_assoc]
      simp
    · simp
      omega

theorem chain_names_from (gs : List Global) : ∀ c : Nat,
    List.Chain' (fun a b => a < b) ((names_from c gs).map Prod.fst) := by
  induction gs with
  | nil => intro c; simp [names_from]
  | cons g rest ih =>
    intro c
    rw [names_from, List.map_cons]
    rw [List.chain'_cons']
    refine ⟨?_, ih (c + 1)⟩
    intro b hb
    cases rest with
    | nil => simp [names_from] at hb
    | cons g2 r2 =>
      simp [names_from] at hb
      omega

theorem payloads_names_from (gs : List Global) : ∀ c : Nat,
    (names_from c gs).map (fun q => q.snd.payload) = gs.map Global.payload := by
  induction gs with
  | nil => intro c; simp [names_from]
  | cons g rest ih =>
    intro c
    rw [names_from, List.map_cons, List.map_cons, ih (c + 1)]

/-- C3: starting from a fresh proxy, any sequence of fewer than `2^32`
`register_global` calls assigns strictly increasing names (hence no name
is ever reused), and iterating the globals BTreeMap (the source of
`wl_registry.global` advertisements) yields the registered globals in
exactly the order of the `register_global` calls. -/
theorem c3_global_names_monotonic_order_preserved (gs : List Global)
    (h : gs.length < 4294967296) :
    List.Chain' (fun a b => a < b) ((register_globals proxy_new gs).globals.map Prod.fst) ∧
    (register_globals proxy_new gs).globals.map (fun q => q.snd.payload) =
      gs.map Global.payload := by
  have hspec := register_globals_spec gs proxy_new
    (by intro q hq; simp [proxy_new] at hq) (by simpa [proxy_new] using h)
  rw [hspec.1]
  simp only [proxy_new, List.nil_append]
  exact ⟨chain_names_from gs 0, payloads_names_from gs 0⟩

/-! ## Claim C4 -/

/-- C4 counterexample: the first swap locks handle 7, `add_fb` succeeds
(fb 100) but `set_crtc` fails, so the association is not memoized; the
second swap locks handle 7 again and calls `add_fb` a second time — so
`add_fb` is not invoked at most once for that handle across the output's
lifetime. -/
theorem c4_add_fb_twice_on_set_crtc_failure :
    add_fb_count 7 (run_swaps (drm_state_new 42 5 (ModeInfo.mk 800 600))
      [SwapEnv.mk (some (BufferObject.mk 800 600 3200 7)) (some 100) false,
       SwapEnv.mk (some (BufferObject.mk 800 600 3200 7)) (some 101) true]).snd = 2 ∧
    ¬ add_fb_count 7 (run_swaps (drm_state_new 42 5 (ModeInfo.mk 800 600))
      [SwapEnv.mk (some (BufferObject.mk 800 600 3200 7)) (some 100) false,
       SwapEnv.mk (some (BufferObject.mk 800 600 3200 7)) (some 101) true]).snd ≤ 1 := by
  decide

theorem add_fb_count_run_swaps (h : Nat) (envs : List SwapEnv) : ∀ st : DrmState,
    (∀ e ∈ envs, e.add_fb_result.isSome ∧ e.set_crtc_ok = true) →
    add_fb_count h (run_swaps st envs).snd ≤
      (if (st.buffers h).isSome then 0 else 1) := by
  induction envs with
  | nil =>
    intro st _
    simp [run_swaps, add_fb_count]
  | cons env rest ih =>
    intro st hok
    obtain ⟨hfb, hcrtc⟩ := hok env (by simp)
    obtain ⟨fb, hfbeq⟩ := Option.isSome_iff_exists.mp hfb
    have hrest : ∀ e ∈ rest, e.add_fb_result.isSome ∧ e.set_crtc_ok = true :=
      fun e he => hok e (by simp [he])
    rw [run_swaps]
    simp only [add_fb_count, List.countP_append] at *
    rcases hlock : env.lock_result with _ | bo
    · -- lock_front_buffer failed: only a possible release call, no add_fb
      have hout : (swap_gbm_buffers st env).calls.countP (is_add_fb_for h) = 0 ∧
          (swap_gbm_buffers st env).state.buffers = st.buffers := by
        unfold swap_gbm_buffers
        rcases hbo : st.bo with _ | b <;> simp [hlock, hbo, is_add_fb_for]
      rw [hout.1]
      have := ih (swap_gbm_buffers st env).state hrest
      simp only [add_fb_count] at this
      rw [hout.2] at this
      omega
    · rcases hmem : st.buffers bo.handle with _ | fbm
      · -- not memoized: add_fb succeeds and set_crtc succeeds
        have hout : (swap_gbm_buffers st env).calls.countP (is_add_fb_for h) =
              (if bo.handle = h then 1 else 0) ∧
            (swap_gbm_buffers st env).state.buffers =
              (fun x => if x = bo.handle then some fb else st.buffers x) := by
          unfold swap_gbm_buffers
          rcases hbo : st.bo with _ | b <;>
            simp [hlock, hbo, hmem, hfbeq, hcrtc, is_add_fb_for, List.countP_cons,
              beq_iff_eq]
        rw [hout.1]
        have hrec := ih (swap_gbm_buffers st env).state hrest
        simp only [add_fb_count] at hrec
        rw [hout.2] at hrec
        by_cases hh : bo.handle = h
        · subst hh
          have happ : ((fun x => if x = bo.handle then some fb else st.buffers x) bo.handle)
              = some fb := if_pos rfl
          rw [happ] at hrec
          have hif : (if (some fb).isSome = true then (0 : Nat) else 1) = 0 := if_pos rfl
          rw [hif] at hrec
          rw [hmem]
          have hif2 : (if (none : Option Nat).isSome = true then (0 : Nat) else 1) = 1 :=
            if_neg (by simp)
          rw [hif2, if_pos rfl]
          omega
        · have hne : ¬ (h = bo.handle) := fun hx => hh hx.symm
          have happ : ((fun x => if x = bo.handle then some fb else st.buffers x) h)
              = st.buffers h := if_neg hne
          rw [happ] at hrec
          rw [if_neg hh, Nat.zero_add]
          exact hrec
      · -- memoized: no add_fb call, state map unchanged
        have hout : (swap_gbm_buffers st env).calls.countP (is_add_fb_for h) = 0 ∧
            (swap_gbm_buffers st env).state.buffers = st.buffers := by
          unfold swap_gbm_buffers
          rcases hbo : st.bo with _ | b <;> simp [hlock, hbo, hmem, is_add_fb_for]
        rw [hout.1]
        have := ih (swap_gbm_buffers st env).state hrest
        simp only [add_fb_count] at this
        rw [hout.2] at this
        omega

/-- C4 (amended): across any sequence of `swap_gbm_buffers` calls in which
every `add_fb` call succeeds and every `set_crtc` call succeeds, `add_fb`
is invoked at most once per buffer-object handle: the first successful
encounter memoizes the framebuffer id and later swaps reuse it.  (When
`set_crtc` fails after a successful `add_fb`, the association is not
memoized and `add_fb` can run again for the same handle, as the
counterexample shows.) -/
theorem c4_add_fb_memoization (envs : List SwapEnv) (crtc_id connector_id : Nat)
    (mode : ModeInfo) (h : Nat)
    (hok : ∀ e ∈ envs, e.add_fb_result.isSome ∧ e.set_crtc_ok = true) :
    add_fb_count h (run_swaps (drm_state_new crtc_id connector_id mode) envs).snd ≤ 1 := by
  have hrun := add_fb_count_run_swaps h envs (drm_state_new crtc_id connector_id mode) hok
  simpa [drm_state_new] using hrun

/-- C4 witness: two successful swaps locking the same handle call
`add_fb` at most once. -/
theorem c4_add_fb_memoization_witness :
    (∀ e ∈ [SwapEnv.mk (some (BufferObject.mk 800 600 3200 7)) (some 100) true,
            SwapEnv.mk (some (BufferObject.mk 800 600 3200 7)) (some 101) true],
       e.add_fb_result.isSome ∧ e.set_crtc_ok = true) ∧
    add_fb_count 7 (run_swaps (drm_state_new 42 5 (ModeInfo.mk 800 600))
      [SwapEnv.mk (some (BufferObject.mk 800 600 3200 7)) (some 100) true,
       SwapEnv.mk (some (BufferObject.mk 800 600 3200 7)) (some 101) true]).snd ≤ 1 :=
  ⟨by decide, c4_add_fb_memoization _ 42 5 (ModeInfo.mk 800 600) 7 (by decide)⟩

/-! ## Claim C7 -/

/-- C7: in `do_wait_and_process`, an `EINTR` poll error returns silently
with nothing invoked and the handler table unchanged; any other errno
panics (terminating the process); and a ready event invokes the
registered handler's callback exactly once with the event kind derived
from the epoll flags. -/
theorem c7_wait_and_process_error_handling (handlers : HandlerTable) :
    (∀ errno, errno = EINTR →
      do_wait_and_process handlers (WaitResult.err (NixError.sys errno)) =
        WaitOutcome.returns [] handlers) ∧
    (∀ errno, errno ≠ EINTR →
      do_wait_and_process handlers (WaitResult.err (NixError.sys errno)) =
        WaitOutcome.fatal) ∧
    (∀ ready event handler_label, 0 < ready → handlers event.data = some handler_label →
      ∃ handlers2,
        do_wait_and_process handlers (WaitResult.ok ready event) =
          WaitOutcome.returns [(event.data, event_kind_from event.events)] handlers2) := by
  refine ⟨?_, ?_, ?_⟩
  · intro errno he
    subst he
    simp [do_wait_and_process]
  · intro errno he
    simp [do_wait_and_process, he]
  · intro ready event handler_label hready hfound
    refine ⟨if event_kind_from event.events = hangup_kind
        then (fun t => if t = event.data then none else handlers t) else handlers, ?_⟩
    unfold do_wait_and_process inner_state_process
    simp [hready, hfound]

/-- C7 witness: with one handler under id 3, errno 4 (EINTR) resumes
silently, errno 5 is fatal, and a ready EPOLLIN event invokes handler 3
with the READ kind. -/
theorem c7_wait_and_process_error_handling_witness :
    ((4 : Nat) = EINTR ∧
      do_wait_and_process fixture_handlers (WaitResult.err (NixError.sys 4)) =
        WaitOutcome.returns [] fixture_handlers) ∧
    ((5 : Nat) ≠ EINTR ∧
      do_wait_and_process fixture_handlers (WaitResult.err (NixError.sys 5)) =
        WaitOutcome.fatal) ∧
    ((0 : Nat) < 1 ∧ fixture_handlers 3 = some 9 ∧
      ∃ handlers2,
        do_wait_and_process fixture_handlers
            (WaitResult.ok 1 (EpollEvent.mk 3 (EpollFlags.mk true false false false))) =
          WaitOutcome.returns
            [(3, event_kind_from (EpollFlags.mk true false false false))] handlers2) :=
  ⟨⟨rfl, (c7_wait_and_process_error_handling fixture_handlers).1 4 rfl⟩,
   ⟨by decide, (c7_wait_and_process_error_handling fixture_handlers).2.1 5 (by decide)⟩,
   ⟨by decide, rfl,
    (c7_wait_and_process_error_handling fixture_handlers).2.2 1
      (EpollEvent.mk 3 (EpollFlags.mk true false false false)) 9 (by decide) rfl⟩⟩

/-! ## Claim C8 -/

/-- C8: a `DrmBundle` whose connector reports an empty mode list makes
`DrmOutput::new` panic at `modes.get(0).unwrap()` instead of returning an
error value, so output construction CAN abort the process; the panic
escapes `Exhibitor::on_output_found`, contradicting the claim that every
construction failure is logged and dropped non-fatally. -/
theorem c8_output_construction_panics_on_empty_modes :
    drm_output_new 42 7 fixture_env_no_modes = NewOutcome.panicked ∧
    exhibitor_on_output_found 1 (fun _ => none) 42 7 fixture_env_no_modes =
      ExhibitorOutcome.aborted :=
  ⟨rfl, rfl⟩

/-- C3 witness: registering two globals yields names 1 and 2 in order. -/
theorem c3_global_names_monotonic_order_preserved_witness :
    ([Global.mk 0 11, Global.mk 0 22] : List Global).length < 4294967296 ∧
    (List.Chain' (fun a b => a < b)
        ((register_globals proxy_new [Global.mk 0 11, Global.mk 0 22]).globals.map Prod.fst) ∧
      (register_globals proxy_new [Global.mk 0 11, Global.mk 0 22]).globals.map
          (fun q => q.snd.payload) =
        [Global.mk 0 11, Global.mk 0 22].map Global.payload) :=
  ⟨by decide, c3_global_names_monotonic_order_preserved _ (by decide)⟩

/-! ## Claim C5 -/

theorem emit_pointer_leaves_shape (oids : List Nat) : ∀ serial so,
    ((emit_pointer_leaves serial oids so).snd.length = oids.length) ∧
    (∀ e ∈ (emit_pointer_leaves serial oids so).snd,
      ∃ po s, e = WaylandEvent.pointerLeave po s so) := by
  induction oids with
  | nil =>
    intro serial so
    simp [emit_pointer_leaves]
  | cons p rest ih =>
    intro serial so
    rcases hp : emit_pointer_leaves (serial + 1) rest so with ⟨s2, events⟩
    have ihs := ih (serial + 1) so
    rw [hp] at ihs
    simp only [emit_pointer_leaves, hp]
    refine ⟨?_, ?_⟩
    · simp [ihs.1]
    · intro e he
      rcases List.mem_cons.mp he with h1 | h2
      · exact ⟨p, serial + 1, h1⟩
      · exact ihs.2 e h2

theorem emit_pointer_enters_shape (oids : List Nat) : ∀ serial so position,
    ((emit_pointer_enters serial oids so position).snd.length = oids.length) ∧
    (∀ e ∈ (emit_pointer_enters serial oids so position).snd,
      ∃ po s, e = WaylandEvent.pointerEnter po s so position.x position.y) := by
  induction oids with
  | nil =>
    intro serial so position
    simp [emit_pointer_enters]
  | cons p rest ih =>
    intro serial so position
    rcases hp : emit_pointer_enters (serial + 1) rest so position with ⟨s2, events⟩
    have ihs := ih (serial + 1) so position
    rw [hp] at ihs
    simp only [emit_pointer_enters, hp]
    refine ⟨?_, ?_⟩
    · simp [ihs.1]
    · intro e he
      rcases List.mem_cons.mp he with h1 | h2
      · exact ⟨p, serial + 1, h1⟩
      · exact ihs.2 e h2

theorem proxy_focus_leave_only (p : Proxy) (old_sid : Nat) (position : Position)
    (iO : SurfaceInfo) (soO : Nat) (hvO : old_sid ≠ invalid_sid)
    (hiO : p.sid_to_surface_info_dictionary old_sid = some iO)
    (hsO : iO.surface_oid = some soO) :
    (proxy_on_pointer_focus_changed p old_sid invalid_sid position).snd =
      (emit_pointer_leaves p.serial p.pointer_oids soO).snd := by
  unfold proxy_on_pointer_focus_changed
  simp [hvO, hiO, hsO]

theorem proxy_focus_enter_only (p : Proxy) (new_sid : Nat) (position : Position)
    (iN : SurfaceInfo) (soN : Nat) (hvN : new_sid ≠ invalid_sid)
    (hiN : p.sid_to_surface_info_dictionary new_sid = some iN)
    (hsN : iN.surface_oid = some soN) :
    (proxy_on_pointer_focus_changed p invalid_sid new_sid position).snd =
      (emit_pointer_enters p.serial p.pointer_oids soN position).snd := by
  unfold proxy_on_pointer_focus_changed
  simp [hvN, hiN, hsN]

theorem proxy_focus_both (p : Proxy) (old_sid new_sid : Nat) (position : Position)
    (iO iN : SurfaceInfo) (soO soN : Nat)
    (hvO : old_sid ≠ invalid_sid) (hvN : new_sid ≠ invalid_sid)
    (hiO : p.sid_to_surface_info_dictionary old_sid = some iO)
    (hsO : iO.surface_oid = some soO)
    (hiN : p.sid_to_surface_info_dictionary new_sid = some iN)
    (hsN : iN.surface_oid = some soN) :
    (proxy_on_pointer_focus_changed p old_sid new_sid position).snd =
      (emit_pointer_leaves p.serial p.pointer_oids soO).snd ++
      (emit_pointer_enters (emit_pointer_leaves p.serial p.pointer_oids soO).fst
        p.pointer_oids soN position).snd := by
  unfold proxy_on_pointer_focus_changed
  simp [hvO, hvN, hiO, hsO, hiN, hsN]

/-- C5: on a pointer focus transition between two surfaces known to the
mediator, the engine notifies the old client with a leave-only call (new
side invalid) and the new client with an enter-only call (old side
invalid) when the clients differ, and makes a single call carrying both
identifiers when they coincide; the notified proxy emits one
`wl_pointer.leave` per live pointer object for the old surface and one
`wl_pointer.enter` per live pointer object for the new surface. -/
theorem c5_pointer_focus_routing (clients : Nat → Option Proxy)
    (mediator : Nat → Option Nat) (old_sid new_sid : Nat) (position : Position)
    (cid_old cid_new : Nat) (pO pN : Proxy) (iO iN : SurfaceInfo) (soO soN : Nat)
    (hmO : mediator old_sid = some cid_old) (hmN : mediator new_sid = some cid_new)
    (hcO : clients cid_old = some pO) (hcN : clients cid_new = some pN)
    (hvO : old_sid ≠ invalid_sid) (hvN : new_sid ≠ invalid_sid)
    (hiO : pO.sid_to_surface_info_dictionary old_sid = some iO)
    (hsO : iO.surface_oid = some soO)
    (hiN : pN.sid_to_surface_info_dictionary new_sid = some iN)
    (hsN : iN.surface_oid = some soN) :
    (cid_old ≠ cid_new →
      ∃ evsA evsB,
        engine_on_pointer_focus_changed clients mediator old_sid new_sid position =
          [(cid_old, evsA), (cid_new, evsB)] ∧
        evsA.length = pO.pointer_oids.length ∧
        (∀ e ∈ evsA, is_leave_for soO e = true) ∧
        evsB.length = pN.pointer_oids.length ∧
        (∀ e ∈ evsB, is_enter_for soN e = true)) ∧
    (cid_old = cid_new →
      ∃ evs,
        engine_on_pointer_focus_changed clients mediator old_sid new_sid position =
          [(cid_old, evs)] ∧
        evs.countP (is_leave_for soO) = pO.pointer_oids.length ∧
        evs.countP (is_enter_for soN) = pO.pointer_oids.length ∧
        evs.length = 2 * pO.pointer_oids.length) := by
  constructor
  · intro hdiff
    have hne : ¬ (some cid_new = some cid_old) := by
      intro hx
      exact hdiff (Option.some.inj hx).symm
    refine ⟨(proxy_on_pointer_focus_changed pO old_sid invalid_sid position_default).snd,
      (proxy_on_pointer_focus_changed pN invalid_sid new_sid position).snd, ?_, ?_, ?_, ?_, ?_⟩
    · have hne2 : ¬ (cid_new = cid_old) := fun hx => hdiff hx.symm
      simp only [engine_on_pointer_focus_changed, hmO, hmN, hcO, hcN]
      simp [hne2]
    · rw [proxy_focus_leave_only pO old_sid position_default iO soO hvO hiO hsO]
      exact (emit_pointer_leaves_shape pO.pointer_oids pO.serial soO).1
    · rw [proxy_focus_leave_only pO old_sid position_default iO soO hvO hiO hsO]
      intro e he
      obtain ⟨po, s, rfl⟩ := (emit_pointer_leaves_shape pO.pointer_oids pO.serial soO).2 e he
      simp [is_leave_for]
    · rw [proxy_focus_enter_only pN new_sid position iN soN hvN hiN hsN]
      exact (emit_pointer_enters_shape pN.pointer_oids pN.serial soN position).1
    · rw [proxy_focus_enter_only pN new_sid position iN soN hvN hiN hsN]
      intro e he
      obtain ⟨po, s, rfl⟩ :=
        (emit_pointer_enters_shape pN.pointer_oids pN.serial soN position).2 e he
      simp [is_enter_for]
  · intro hsame
    subst hsame
    have hpp : pO = pN := by
      rw [hcO] at hcN
      exact Option.some.inj hcN
    subst hpp
    refine ⟨(proxy_on_pointer_focus_changed pO old_sid new_sid position).snd, ?_, ?_, ?_, ?_⟩
    · simp only [engine_on_pointer_focus_changed, hmO, hmN, hcO]
      simp
    · rw [proxy_focus_both pO old_sid new_sid position iO iN soO soN hvO hvN hiO hsO hiN hsN]
      rw [List.countP_append]
      have h1 : (emit_pointer_leaves pO.serial pO.pointer_oids soO).snd.countP
          (is_leave_for soO) = pO.pointer_oids.length := by
        rw [List.countP_eq_length.mpr, (emit_pointer_leaves_shape pO.pointer_oids pO.serial soO).1]
        intro e he
        obtain ⟨po, s, rfl⟩ := (emit_pointer_leaves_shape pO.pointer_oids pO.serial soO).2 e he
        simp [is_leave_for]
      have h2 : (emit_pointer_enters (emit_pointer_leaves pO.serial pO.pointer_oids soO).fst
          pO.pointer_oids soN position).snd.countP (is_leave_for soO) = 0 := by
        rw [List.countP_eq_zero.mpr]
        intro e he
        obtain ⟨po, s, rfl⟩ := (emit_pointer_enters_shape pO.pointer_oids
          (emit_pointer_leaves pO.serial pO.pointer_oids soO).fst soN position).2 e he
        simp [is_leave_for]
      rw [h1, h2]
      omega
    · rw [proxy_focus_both pO old_sid new_sid position iO iN soO soN hvO hvN hiO hsO hiN hsN]
      rw [List.countP_append]
      have h1 : (emit_pointer_leaves pO.serial pO.pointer_oids soO).snd.countP
          (is_enter_for soN) = 0 := by
        rw [List.countP_eq_zero.mpr]
        intro e he
        obtain ⟨po, s, rfl⟩ := (emit_pointer_leaves_shape pO.pointer_oids pO.serial soO).2 e he
        simp [is_enter_for]
      have h2 : (emit_pointer_enters (emit_pointer_leaves pO.serial pO.pointer_oids soO).fst
          pO.pointer_oids soN position).snd.countP (is_enter_for soN) =
            pO.pointer_oids.length := by
        rw [List.countP_eq_length.mpr, (emit_pointer_enters_shape pO.pointer_oids
          (emit_pointer_leaves pO.serial pO.pointer_oids soO).fst soN position).1]
        intro e he
        obtain ⟨po, s, rfl⟩ := (emit_pointer_enters_shape pO.pointer_oids
          (emit_pointer_leaves pO.serial pO.pointer_oids soO).fst soN position).2 e he
        simp [is_enter_for]
      rw [h1, h2]
      omega
    · rw [proxy_focus_both pO old_sid new_sid position iO iN soO soN hvO hvN hiO hsO hiN hsN]
      rw [List.length_append,
        (emit_pointer_leaves_shape pO.pointer_oids pO.serial soO).1,
        (emit_pointer_enters_shape pO.pointer_oids
          (emit_pointer_leaves pO.serial pO.pointer_oids soO).fst soN position).1]
      omega

/-- C5 witness: surfaces 1 and 2 owned by different clients 10 and 20;
client 10 has two pointer objects, client 20 has one. -/
theorem c5_pointer_focus_routing_witness :
    fixture_mediator 1 = some 10 ∧ fixture_mediator 2 = some 20 ∧
    fixture_clients 10 = some fixture_proxy_a ∧ fixture_clients 20 = some fixture_proxy_b ∧
    ((10 : Nat) ≠ 20 →
      ∃ evsA evsB,
        engine_on_pointer_focus_changed fixture_clients fixture_mediator 1 2
            (Position.mk 30 40) =
          [(10, evsA), (20, evsB)] ∧
        evsA.length = fixture_proxy_a.pointer_oids.length ∧
        (∀ e ∈ evsA, is_leave_for 41 e = true) ∧
        evsB.length = fixture_proxy_b.pointer_oids.length ∧
        (∀ e ∈ evsB, is_enter_for 42 e = true)) :=
  ⟨rfl, rfl, rfl, rfl,
    (c5_pointer_focus_routing fixture_clients fixture_mediator 1 2 (Position.mk 30 40)
      10 20 fixture_proxy_a fixture_proxy_b
      (SurfaceInfo.mk (some 41) none none none) (SurfaceInfo.mk (some 42) none none none)
      41 42 rfl rfl rfl rfl (by decide) (by decide) rfl rfl rfl rfl).1⟩

end Perceptia
